import Mathlib

/-!
Shallow embedding of `pyfeedback.py`.

Python dicts and attribute tables are modelled as association lists
(`List (String × _)`), preserving insertion order as Python dicts do.
Python exceptions surface as explicit error values (`PyError`), paired
with the output emitted before the exception where the source emits
output (prints) as it iterates.
-/

/-- Python exceptions that the embedded code can raise. -/
inductive PyError where
  | keyError
  | attributeError
  | typeError
  | indexError
deriving DecidableEq

/-- Association-list lookup, the model of `d[k]` presence tests and
`getattr`: the first binding for the key wins (keys are unique in a
Python dict, so this is exact). -/
def alookup {α : Type} : List (String × α) → String → Option α
  | [], _ => none
  | (k, v) :: rest, key => if k = key then some v else alookup rest key

/-- Association-list update, the model of `d[k] = v` / `setattr`:
replaces the existing binding in place, else appends. -/
def asetattr {α : Type} : List (String × α) → String → α → List (String × α)
  | [], key, v => [(key, v)]
  | (k, w) :: rest, key, v =>
      if k = key then (k, v) :: rest else (k, w) :: asetattr rest key v

/-- Number of bindings an association list holds for a key. -/
def countKey {α : Type} (l : List (String × α)) (key : String) : Nat :=
  (l.filter (fun kv => kv.1 = key)).length

theorem alookup_asetattr {α : Type} (l : List (String × α)) (k : String) (v : α) :
    alookup (asetattr l k v) k = some v := by
  induction l with
  | nil => simp [asetattr, alookup]
  | cons hd tl ih =>
      by_cases hk : hd.1 = k
      · simp [asetattr, alookup, hk]
      · simp [asetattr, alookup, hk, ih]

theorem alookup_eq_none_iff_countKey {α : Type} (l : List (String × α)) (key : String) :
    alookup l key = none ↔ countKey l key = 0 := by
  induction l with
  | nil => simp [alookup, countKey]
  | cons hd tl ih =>
      obtain ⟨k, v⟩ := hd
      by_cases hk : k = key
      · simp [alookup, countKey, hk]
      · simp only [alookup, countKey, hk, if_neg, List.filter] at ih ⊢
        simpa [hk] using ih

theorem countKey_asetattr {α : Type} (l : List (String × α)) (key : String) (v : α) :
    countKey (asetattr l key v) key = max (countKey l key) 1 := by
  induction l with
  | nil => simp [asetattr, countKey]
  | cons hd tl ih =>
      obtain ⟨k, w⟩ := hd
      by_cases hk : k = key
      · simp [asetattr, countKey, hk]
      · simp only [asetattr, countKey, hk, if_neg, List.filter] at ih ⊢
        simpa [hk] using ih

/-! ## Diff engine: `ExtendedPdb._monitor_changes` -/

/-- A binding snapshot: a Python dict from variable name to value,
in insertion order. Values are modelled as integers; the source
compares them with `!=` (value inequality). -/
abbrev Snapshot := List (String × Int)

/-- Change records, one per emission callback of the source:
`on_new_variable`, `on_variable_changed` (new value, then old value),
`on_variable_deleted`. -/
inductive ChangeRecord where
  | created (name : String) (value : Int)
  | modified (name : String) (value : Int) (old_value : Int)
  | deleted (name : String) (old_value : Int)
deriving DecidableEq

/-- The loop `for k, v in current.items():` of `_monitor_changes`.
For each key of `current`: `if k not in prev:` emits a `created`
record; then the source unconditionally evaluates `prev[k]`, which
raises `KeyError` precisely when `k` is not in `prev` (there is no
`elif`), aborting the loop; otherwise `if v != prev[k]:` emits a
`modified` record. Returns the records emitted before any exception,
plus the exception if one was raised. -/
def diffCurrent (prev : Snapshot) : Snapshot → List ChangeRecord × Option PyError
  | [] => ([], none)
  | (k, v) :: rest =>
      match alookup prev k with
      | none => ([ChangeRecord.created k v], some PyError.keyError)
      | some pv =>
          let modRecs := if v = pv then [] else [ChangeRecord.modified k v pv]
          let tailRes := diffCurrent prev rest
          (modRecs ++ tailRes.1, tailRes.2)

/-- `ExtendedPdb._monitor_changes(prev, current, desc)`.
`if prev:` guards only the created/modified loop and tests Python
truthiness (`None` and the empty dict are both falsy); the final loop
`for k, v in prev.items():` sits OUTSIDE that guard in the source, so
when `prev` is `None` it raises `AttributeError` (`None.items()`).
Returns the emitted records plus the exception, if any. -/
def _monitor_changes (prev : Option Snapshot) (current : Snapshot) :
    List ChangeRecord × Option PyError :=
  let phase1 :=
    match prev with
    | none => ([], none)
    | some p => if p.isEmpty then ([], none) else diffCurrent p current
  match phase1, prev with
  | (recs, some e), _ => (recs, some e)
  | (recs, none), none => (recs, some PyError.attributeError)
  | (recs, none), some p =>
      (recs ++ p.filterMap (fun kv =>
        match alookup current kv.1 with
        | some _ => none
        | none => some (ChangeRecord.deleted kv.1 kv.2)), none)

/-! ## Saved snapshots and the `do_pf_*_changes` commands -/

/-- The frame attributes the handlers read (`curframe.f_locals`,
`curframe.f_globals`). -/
structure Frame where
  f_locals : Snapshot
  f_globals : Snapshot
deriving DecidableEq

/-- The debugger's saved snapshots: `ExtendedPdb._locals` and
`ExtendedPdb._globals`, both initially `None`. -/
structure PdbVars where
  _locals : Option Snapshot
  _globals : Option Snapshot
deriving DecidableEq

/-- `ExtendedPdb.do_pf_globals_changes`: diffs `self._globals` against
`curframe.f_globals`, then (as written in the source) stores the copy
of `curframe.f_globals` into `self._locals` — not `self._globals`.
If the diff raises, the store (a later statement) does not happen.
Returns the new saved-snapshot state, the emitted records, and the
exception, if any. -/
def do_pf_globals_changes (st : PdbVars) (curframe : Frame) :
    PdbVars × List ChangeRecord × Option PyError :=
  let res := _monitor_changes st._globals curframe.f_globals
  match res.2 with
  | some e => (st, res.1, some e)
  | none => ({ st with _locals := some curframe.f_globals }, res.1, none)

/-- `ExtendedPdb.do_pf_locals_changes`: diffs `self._locals` against
`curframe.f_globals` (the source passes the frame's GLOBALS here, not
its locals), then stores the copy of `curframe.f_locals` into
`self._locals`. If the diff raises, the store does not happen. -/
def do_pf_locals_changes (st : PdbVars) (curframe : Frame) :
    PdbVars × List ChangeRecord × Option PyError :=
  let res := _monitor_changes st._locals curframe.f_globals
  match res.2 with
  | some e => (st, res.1, some e)
  | none => ({ st with _locals := some curframe.f_locals }, res.1, none)

/-! ## Call recorder: `ExtendedPdb._check_mock` -/

/-- One recorded call: its positional arguments. -/
abbrev Call := List Int

/-- What a Python list may be subscripted with in the expression at
hand: an integer, or (as the source actually does) another list. -/
inductive PyIndex (α : Type) where
  | intIx (i : Int)
  | listIx (l : List α)

/-- Python `xs[ix]` on a list: integer indices work (with negative
wrap-around), anything else — in particular a list — raises
`TypeError: list indices must be integers or slices`. -/
def pyListGetItem {α : Type} (xs : List α) : PyIndex α → Except PyError α
  | PyIndex.intIx i =>
      let j := if i < 0 then i + xs.length else i
      if h : 0 ≤ j ∧ j < (xs.length : Int) then
        Except.ok (xs.get ⟨j.toNat, by omega⟩)
      else Except.error PyError.indexError
  | PyIndex.listIx _ => Except.error PyError.typeError

/-- `ExtendedPdb._check_mock(name, mock)`:
`prev_calls = self._mock_calls.get(name, [])`, then
`new_calls = mock.call_args_list[mock.call_args_list[len(prev_calls):]]`
— the outer subscript's index is itself a list (the slice
`call_args_list[len(prev_calls):]`), so the subscript raises
`TypeError`; the emission loop and the cursor update
`self._mock_calls[name] = mock.call_args_list.copy()` are never
reached. On success it would return the updated cursor map and the
calls reported. -/
def _check_mock (mock_calls : List (String × List Call)) (name : String)
    (call_args_list : List Call) :
    Except PyError (List (String × List Call) × List Call) :=
  let prev_calls := (alookup mock_calls name).getD []
  match pyListGetItem call_args_list
      (PyIndex.listIx (call_args_list.drop prev_calls.length)) with
  | Except.error e => Except.error e
  | Except.ok c => Except.ok (asetattr mock_calls name call_args_list, [c])

/-! ## Doubles: `ExtendedPdb.add_mocks` and `unittest.mock.Mock` calls -/

/-- A Python attribute value as `add_mocks` can meet it: a plain
(integer) value, `None`, a callable, or an installed double
(`Mock`/`AsyncMock`) carrying its `side_effect` and its recorded
`call_args_list`. -/
inductive Attr where
  | val (v : Int)
  | pynone
  | func (f : List Int → Int)
  | mock (side_effect : Option Attr) (calls : List (List Int))

/-- Python truthiness of an attribute value: `None` and `0` are falsy;
functions and `Mock` objects are truthy. -/
def Attr.truthy : Attr → Bool
  | Attr.val v => v != 0
  | Attr.pynone => false
  | Attr.func _ => true
  | Attr.mock _ _ => true

/-- The attribute table of a parent object (module or class). -/
abbrev Obj := List (String × Attr)

/-- `getattr(obj, attr, None)`: the attribute's value, defaulting to
`None` when the attribute does not exist. -/
def getattr_none (obj : Obj) (attr : String) : Attr :=
  (alookup obj attr).getD Attr.pynone

/-- The per-attribute body of `ExtendedPdb.add_mocks` (lines 155-162),
after the dotted path has been resolved to a parent object and an
attribute name (resolution goes through `import_string`, an external
collaborator): `value = getattr(obj, attr, None)`; `if value:` —
truthiness, not existence — replace the attribute with
`mock_class(side_effect=value if keep_functionality else None)` and
report success (the `Replaced ...` print); otherwise print
`There is no attribute called ...` and leave the object unchanged.
Nothing is raised in either case. Returns the resulting object and
`true` when the attribute was replaced, `false` when the
no-such-attribute message was printed. -/
def add_mocks (obj : Obj) (attr : String) (keep_functionality : Bool) : Obj × Bool :=
  let value := getattr_none obj attr
  if value.truthy then
    (asetattr obj attr
      (Attr.mock (if keep_functionality then some value else none) []), true)
  else
    (obj, false)

/-- Outcome of calling a double. -/
inductive CallOutcome where
  | forwarded (r : Int)
  | defaultValue
  | notCallable
  | notMock

/-- Calling an attribute that is a double, following
`unittest.mock.Mock.__call__` (external library): the call is appended
to `call_args_list` first; then, if a `side_effect` is set and
callable, it is invoked and its result returned; a non-callable
`side_effect` raises `TypeError`; with no `side_effect` the mock's
(default) `return_value` is returned and the original implementation
is never invoked. Calling a non-mock attribute is out of scope here. -/
def call_double : Attr → List Int → Attr × CallOutcome
  | Attr.mock se calls, args =>
      let recorded := Attr.mock se (calls ++ [args])
      match se with
      | some (Attr.func f) => (recorded, CallOutcome.forwarded (f args))
      | some _ => (recorded, CallOutcome.notCallable)
      | none => (recorded, CallOutcome.defaultValue)
  | a, _ => (a, CallOutcome.notMock)

/-! ## Registry: `ExtendedPdb._register_mock_module_from_string` -/

/-- `ExtendedPdb._register_mock_module_from_string(path)`: if the path
is not yet a key of `self._modules_with_mocks`, import the object
(`import_string` is `@cache`d, hence a pure function of the path,
modelled by `env`), store it under the path and return it; otherwise
return the stored object without touching the registry. -/
def _register_mock_module_from_string {α : Type} (env : String → α)
    (reg : List (String × α)) (path : String) : List (String × α) × α :=
  match alookup reg path with
  | none => (asetattr reg path (env path), env path)
  | some obj => (reg, obj)

/-! ## `AutomatedPdb`: the automated session controller -/

/-- The controller state the `AutomatedPdb` handlers touch: the pending
command queue `rcLines` and the two flags set in `__init__`. -/
structure AutoState where
  rcLines : List String
  launch_cmdloop : Bool
  all_lines : Bool
deriving DecidableEq

/-- Which base-class (`Pdb`) handler a pause handler delegates to after
filling the queue. -/
inductive SuperHandler where
  | user_call_base
  | user_line_base
  | user_return_base
deriving DecidableEq

/-- `AutomatedPdb.__init__(function, cmdloop, all_lines, ...)`: extends
the inherited `rcLines` with the temporary breakpoint on `function` and
a continue, then sets `self.launch_cmdloop = False` and
`self.all_lines = True` — the literal constants, not the `cmdloop` and
`all_lines` arguments, which are never read. -/
def AutomatedPdb_init (function : String) (cmdloop : Bool) (all_lines : Bool)
    (inheritedRcLines : List String) : AutoState :=
  { rcLines := inheritedRcLines ++ ["tbreak " ++ function, "cont"],
    launch_cmdloop := false,
    all_lines := true }

/-- `AutomatedPdb._cmdloop`: launches the interactive command loop
(`super()._cmdloop()`) only when `self.launch_cmdloop` holds; returns
whether the loop was launched. -/
def _cmdloop (st : AutoState) : Bool :=
  st.launch_cmdloop

/-- `AutomatedPdb.user_call`: when the queue is empty, enqueue `args`
and `pf_side_effects`, and — unless `launch_cmdloop` — `next` when
`all_lines` else `cont`; then delegate to `super().user_call`. -/
def user_call (st : AutoState) : AutoState × SuperHandler :=
  let st1 :=
    if st.rcLines.isEmpty then
      { st with rcLines := st.rcLines ++ ["args", "pf_side_effects"] ++
          (if !st.launch_cmdloop then [if st.all_lines then "next" else "cont"] else []) }
    else st
  (st1, SuperHandler.user_call_base)

/-- `AutomatedPdb.user_line`: when the queue is empty, enqueue `args`,
`do_pf_locals_changes`, `do_pf_globals_changes`, `pf_side_effects`,
and — unless `launch_cmdloop` — `next`; then delegate to
`super().user_line`. -/
def user_line (st : AutoState) : AutoState × SuperHandler :=
  let st1 :=
    if st.rcLines.isEmpty then
      { st with rcLines := st.rcLines ++
          ["args", "do_pf_locals_changes", "do_pf_globals_changes", "pf_side_effects"] ++
          (if !st.launch_cmdloop then ["next"] else []) }
    else st
  (st1, SuperHandler.user_line_base)

/-- `AutomatedPdb.user_return`: when the queue is empty, enqueue `args`
and `pf_side_effects`, and — unless `launch_cmdloop` — `cont`; then the
source delegates to `super().user_line(frame)` — the base LINE handler,
not `super().user_return`. -/
def user_return (st : AutoState) : AutoState × SuperHandler :=
  let st1 :=
    if st.rcLines.isEmpty then
      { st with rcLines := st.rcLines ++ ["args", "pf_side_effects"] ++
          (if !st.launch_cmdloop then ["cont"] else []) }
    else st
  (st1, SuperHandler.user_line_base)

/-! ## Watch reloader: `ScriptFileHandler` -/

/-- `ScriptFileHandler._set_module_name`: stores
`script.split('.py')[0]`, the prefix of the path before its first
`.py` occurrence (the module name the debugger is relaunched with). -/
def set_module_name (script : String) : String :=
  (script.splitOn ".py").headD script

/-- Commands the handler issues to the debugger it owns:
`do_quit("")` and `_runmodule(module)`. -/
inductive ReloadAction where
  | quit
  | relaunch (module : String)
deriving DecidableEq

/-- The reloader's state: the tracked module name. -/
structure HandlerState where
  module : String
deriving DecidableEq

/-- `ScriptFileHandler.on_deleted`: quit only, no relaunch, tracked
path unchanged. -/
def on_deleted (st : HandlerState) : HandlerState × List ReloadAction :=
  (st, [ReloadAction.quit])

/-- `ScriptFileHandler.on_moved`: update the tracked module name from
`event.dest_path` first, then `_reload()` = quit followed by relaunch
of the (now updated) tracked module. -/
def on_moved (st : HandlerState) (dest_path : String) : HandlerState × List ReloadAction :=
  let st1 : HandlerState := { module := set_module_name dest_path }
  (st1, [ReloadAction.quit, ReloadAction.relaunch st1.module])

/-- `ScriptFileHandler.on_modified`: `_reload()` = quit followed by
relaunch of the unchanged tracked module. -/
def on_modified (st : HandlerState) : HandlerState × List ReloadAction :=
  (st, [ReloadAction.quit, ReloadAction.relaunch st.module])

/-! ## Claim theorems -/

/-- C1: evidence against the claim — on previous snapshot
`{a: 1}` and current snapshot `{a: 1, b: 2}`, the diff emits the
`created` record for `b` and then raises `KeyError` evaluating
`prev["b"]` (the "not in previous" and "different value" branches are
not mutually exclusive: there is no `elif`), so the diff never
completes a one-case-per-key classification. -/
theorem C1_created_key_raises_keyerror :
    _monitor_changes (some [("a", 1)]) [("a", 1), ("b", 2)]
      = ([ChangeRecord.created "b" 2], some PyError.keyError) := by rfl

/-- C2: evidence against the claim — when the previous snapshot is
absent (`None`, the first observation), the diff emits no records but
raises `AttributeError`: the deleted-keys loop `for k, v in
prev.items():` sits outside the `if prev:` guard, so it calls
`.items()` on `None` instead of completing without failure. -/
theorem C2_absent_previous_raises_attributeerror :
    _monitor_changes none [("a", 1)] = ([], some PyError.attributeError) := by rfl

/-- C3: evidence against the claim — with one call already checked and
two calls recorded, `_check_mock` raises `TypeError` (it subscripts the
call list with the list `call_args_list[len(prev_calls):]` instead of
using that slice directly), so it never returns the new-call suffix nor
advances the cursor. -/
theorem C3_check_mock_raises_typeerror :
    _check_mock [("m", [[1]])] "m" [[1], [2]] = Except.error PyError.typeError := by rfl

/-- C4: evidence against the claim — with saved locals `{x: 1}`, saved
globals `{x: 0}`, current locals `{x: 2}` and current globals `{x: 3}`:
the locals command diffs the saved locals against the CURRENT GLOBALS
(reporting `x` changed to `3`, though the current local value is `2`),
and the globals command stores the new globals snapshot into the
LOCALS slot, leaving the saved globals slot stale. -/
theorem C4_scope_mixup :
    (do_pf_locals_changes { _locals := some [("x", 1)], _globals := some [("x", 0)] }
        { f_locals := [("x", 2)], f_globals := [("x", 3)] }).2.1
      = [ChangeRecord.modified "x" 3 1] ∧
    (do_pf_globals_changes { _locals := some [("x", 1)], _globals := some [("x", 0)] }
        { f_locals := [("x", 2)], f_globals := [("x", 3)] }).1
      = { _locals := some [("x", 3)], _globals := some [("x", 0)] } := by
  exact ⟨rfl, rfl⟩

/-- C5: when the target attribute is a callable `f`, installing with
`keep_functionality = true` stores a double whose `side_effect` is `f`,
and every call to that double records the call and returns `f args`
(forwarding); installing with `keep_functionality = false` stores a
double with no `side_effect`, and every call records the call and
returns the mock's default return value without invoking `f`. -/
theorem C5_keep_functionality_forwarding (obj : Obj) (attr : String)
    (f : List Int → Int) (args : List Int) (cs : List (List Int))
    (h : getattr_none obj attr = Attr.func f) :
    alookup (add_mocks obj attr true).1 attr
      = some (Attr.mock (some (Attr.func f)) []) ∧
    call_double (Attr.mock (some (Attr.func f)) cs) args
      = (Attr.mock (some (Attr.func f)) (cs ++ [args]), CallOutcome.forwarded (f args)) ∧
    alookup (add_mocks obj attr false).1 attr = some (Attr.mock none []) ∧
    call_double (Attr.mock none cs) args
      = (Attr.mock none (cs ++ [args]), CallOutcome.defaultValue) := by
  refine ⟨?_, rfl, ?_, rfl⟩
  · simp [add_mocks, h, Attr.truthy, alookup_asetattr]
  · simp [add_mocks, h, Attr.truthy, alookup_asetattr]

/-- The witness callable: maps its first argument `x` to `x + 1`. -/
def addOne (args : List Int) : Int := args.headD 0 + 1

/-- C5 witness: the forwarding double over `addOne` called with `[5]`
records the call and returns `6`; the non-forwarding double records the
call and returns the default. -/
theorem C5_keep_functionality_forwarding_witness :
    call_double (Attr.mock (some (Attr.func addOne)) []) [5]
      = (Attr.mock (some (Attr.func addOne)) [[5]], CallOutcome.forwarded 6) ∧
    call_double (Attr.mock none []) [5]
      = (Attr.mock none [[5]], CallOutcome.defaultValue) := by
  have h := C5_keep_functionality_forwarding [("fn", Attr.func addOne)] "fn"
      addOne [5] [] rfl
  refine ⟨?_, h.2.2.2⟩
  have h2 := h.2.1
  rw [h2]
  rfl

/-- C6: counterexample to the claim as stated — the parent
`[("fn", 0)]` HAS the attribute `fn` (its value is `0`), yet the
install operation reports the attribute as missing and leaves the
parent unchanged, because the source tests `if value:` (truthiness of
`getattr(obj, attr, None)`), not existence. -/
theorem C6_falsy_existing_attr_reported_missing :
    alookup [("fn", Attr.val 0)] "fn" = some (Attr.val 0) ∧
    add_mocks [("fn", Attr.val 0)] "fn" false = ([("fn", Attr.val 0)], false) := by
  exact ⟨rfl, rfl⟩

/-- C6 (amended): the install operation reports the attribute as
missing and leaves the parent unchanged exactly when the value of
`getattr(obj, attr, None)` is FALSY (missing, `None`, or a falsy value
such as `0`); when that value is truthy it is replaced by a
call-recording double whose `side_effect` is the original value iff
`keep_functionality`; in the failure case nothing is raised and the
parent is returned unchanged. -/
theorem C6_install_gate_is_truthiness (obj : Obj) (attr : String)
    (keep_functionality : Bool) :
    ((add_mocks obj attr keep_functionality).2 = false ↔
        (getattr_none obj attr).truthy = false) ∧
    ((add_mocks obj attr keep_functionality).2 = false →
        (add_mocks obj attr keep_functionality).1 = obj) ∧
    ((add_mocks obj attr keep_functionality).2 = true →
        alookup (add_mocks obj attr keep_functionality).1 attr
          = some (Attr.mock
              (if keep_functionality then some (getattr_none obj attr) else none)
              [])) := by
  cases htr : (getattr_none obj attr).truthy with
  | false => simp [add_mocks, htr]
  | true => simp [add_mocks, htr, alookup_asetattr]

/-- C6 witness: on `[("fn", addOne)]` with `keep_functionality = false`
the attribute is replaced by a recording double with no `side_effect`;
on `[("gn", None)]` the operation reports failure and leaves the
parent unchanged. -/
theorem C6_install_gate_is_truthiness_witness :
    alookup (add_mocks [("fn", Attr.func addOne)] "fn" false).1 "fn"
      = some (Attr.mock none []) ∧
    (add_mocks [("gn", Attr.pynone)] "gn" true).1 = [("gn", Attr.pynone)] := by
  constructor
  · exact (C6_install_gate_is_truthiness [("fn", Attr.func addOne)] "fn" false).2.2 rfl
  · exact (C6_install_gate_is_truthiness [("gn", Attr.pynone)] "gn" true).2.1 rfl

/-- C7: registration is idempotent — registering the same path a
second time returns exactly the registry and object of the first call
(no new entry, same Double Registration), and after the first call the
path is stored exactly `max(previous count, 1)` times, hence at most
once when the registry held it at most once before. -/
theorem C7_register_idempotent {α : Type} (env : String → α)
    (reg : List (String × α)) (path : String) :
    _register_mock_module_from_string env
        (_register_mock_module_from_string env reg path).1 path
      = _register_mock_module_from_string env reg path ∧
    countKey (_register_mock_module_from_string env reg path).1 path
      = max (countKey reg path) 1 := by
  cases hl : alookup reg path with
  | none =>
      constructor
      · simp [_register_mock_module_from_string, hl, alookup_asetattr]
      · simp [_register_mock_module_from_string, hl, countKey_asetattr]
  | some obj =>
      constructor
      · simp [_register_mock_module_from_string, hl]
      · have h0 : countKey reg path ≠ 0 := by
          intro hc
          rw [← alookup_eq_none_iff_countKey] at hc
          rw [hl] at hc
          exact Option.noConfusion hc
        simp only [_register_mock_module_from_string, hl]
        exact (max_eq_left (by omega)).symm

/-- C8: evidence against the delegation part of the claim — on a
return pause with an empty queue in automated mode, the controller
enqueues exactly `args`, `pf_side_effects` and the single resume
command `cont`, but then delegates to the base LINE handler
(`super().user_line(frame)` in the source), not the base return
handler. -/
theorem C8_user_return_delegates_to_line_handler :
    user_return { rcLines := [], launch_cmdloop := false, all_lines := true }
      = ({ rcLines := ["args", "pf_side_effects", "cont"],
           launch_cmdloop := false, all_lines := true },
         SuperHandler.user_line_base) := by rfl

/-- C9: the watch reloader reacts to each event kind as specified — a
deleted event issues quit only (no relaunch action, path unchanged); a
moved event first updates the tracked module name from the event's
destination path and then issues quit followed by relaunch of the
updated name; a modified event issues quit followed by relaunch of the
unchanged name. -/
theorem C9_reloader_event_reactions (st : HandlerState) (dest_path : String) :
    on_deleted st = (st, [ReloadAction.quit]) ∧
    (on_moved st dest_path).1.module = set_module_name dest_path ∧
    (on_moved st dest_path).2
      = [ReloadAction.quit, ReloadAction.relaunch (set_module_name dest_path)] ∧
    on_modified st = (st, [ReloadAction.quit, ReloadAction.relaunch st.module]) := by
  exact ⟨rfl, rfl, rfl, rfl⟩

/-- C10: the constructor ignores its `cmdloop` and `all_lines`
arguments — whatever is passed, the instance has
`launch_cmdloop = false` and `all_lines = true`; consequently the
interactive command loop is never launched, and an entry pause with an
empty queue in that configuration enqueues `next` (advance to next
line), never `cont`. -/
theorem C10_constructor_ignores_arguments (function : String) (cmdloop : Bool)
    (all_lines : Bool) (inheritedRcLines : List String) (s : AutoState)
    (h1 : s.launch_cmdloop = false) (h2 : s.all_lines = true) (h3 : s.rcLines = []) :
    (AutomatedPdb_init function cmdloop all_lines inheritedRcLines).launch_cmdloop
      = false ∧
    (AutomatedPdb_init function cmdloop all_lines inheritedRcLines).all_lines = true ∧
    _cmdloop (AutomatedPdb_init function cmdloop all_lines inheritedRcLines) = false ∧
    (user_call s).1.rcLines = ["args", "pf_side_effects", "next"] ∧
    _cmdloop s = false := by
  refine ⟨rfl, rfl, rfl, ?_, h1⟩
  simp [user_call, _cmdloop, h1, h2, h3]

/-- C10 witness: constructed with `cmdloop = true` and
`all_lines = false`, the instance still has `launch_cmdloop = false`;
an automated entry pause on an empty queue enqueues
`args`, `pf_side_effects`, `next`. -/
theorem C10_constructor_ignores_arguments_witness :
    (AutomatedPdb_init "main" true false ["help"]).launch_cmdloop = false ∧
    (user_call { rcLines := [], launch_cmdloop := false, all_lines := true }).1.rcLines
      = ["args", "pf_side_effects", "next"] := by
  have h := C10_constructor_ignores_arguments "main" true false ["help"]
      { rcLines := [], launch_cmdloop := false, all_lines := true } rfl rfl rfl
  exact ⟨h.1, h.2.2.2.1⟩
